import Mathlib

/-!
Verification development for the granola-skill repository: a shallow
embedding of the cache/query layer (src/cache.ts) and of the command
dispatcher (the CLI entry file), together with theorems settling the
frozen claims about them.

Modelling conventions, used throughout:
- ISO-8601 timestamp strings (created_at, start_timestamp, ...) are
  represented by their epoch-millisecond value as an Int, because every
  use in the source converts them through new Date(s) before comparing,
  sorting or rendering.
- JS locale rendering (Date.prototype.toLocaleString and friends) is
  modelled by deterministic functions of the timestamp with a fixed
  locale and UTC; no claim depends on the exact rendered shape.
- Record<string, T> objects are modelled by association lists
  List (String × T); Object.values is the list of second components.
- Fallible operations (process.exit(1) after console.error, a throwing
  constructor) are modelled with Except/Option rather than exceptions.
-/

namespace Granola

/-! ### JS string helpers -/

/-- JS truthiness-based string fallback: the expression x || d where x is an
optional string (undefined and the empty string are falsy). -/
def jsOrStr : Option String → String → String
  | some s, d => if s = "" then d else s
  | none, d => d

/-- Substring test on character lists, used to model JS String.prototype.includes. -/
def containsSub : List Char → List Char → Bool
  | l, p =>
    p.isPrefixOf l ||
      match l with
      | [] => false
      | _ :: t => containsSub t p

/-- JS s.includes(q): q occurs as a contiguous substring of s. -/
def jsIncludes (s q : String) : Bool := containsSub s.toList q.toList

/-- JS String.prototype.toLowerCase, modelled on the character list
(agrees with JS on the ASCII range used by the source). -/
def jsToLower (s : String) : String := String.mk (s.toList.map Char.toLower)

/-- JS s.startsWith(pre), modelled on the character list. -/
def jsStartsWith (s pre : String) : Bool := pre.toList.isPrefixOf s.toList

/-- JS s.slice(0, n). -/
def strTake (s : String) (n : Nat) : String := String.mk (s.toList.take n)

/-- JS s.slice(n): drop the first n characters. -/
def strDrop (s : String) (n : Nat) : String := String.mk (s.toList.drop n)

/-! ### Time rendering (deterministic models of the JS Date methods) -/

def msPerDay : Int := 86400000

def pad2 (n : Int) : String := if n < 10 then "0" ++ toString n else toString n

/-- Model of Date.prototype.toLocaleTimeString: fixed locale, UTC, "HH:MM:SS". -/
def toLocaleTimeString (t : Int) : String :=
  let secs := (t / 1000) % 86400
  pad2 (secs / 3600) ++ ":" ++ pad2 ((secs % 3600) / 60) ++ ":" ++ pad2 (secs % 60)

/-- Civil date (year, month, day) from days since the Unix epoch
(standard days-to-civil conversion on Int). -/
def civilFromDays (z0 : Int) : Int × Int × Int :=
  let z := z0 + 719468
  let era := (if 0 ≤ z then z else z - 146096) / 146097
  let doe := z - era * 146097
  let yoe := (doe - doe / 1460 + doe / 36524 - doe / 146096) / 365
  let y := yoe + era * 400
  let doy := doe - (365 * yoe + yoe / 4 - yoe / 100)
  let mp := (5 * doy + 2) / 153
  let d := doy - (153 * mp + 2) / 5 + 1
  let m := mp + (if mp < 10 then 3 else -9)
  (y + (if m ≤ 2 then 1 else 0), m, d)

/-- Model of Date.prototype.toLocaleDateString: fixed locale, UTC, "M/D/YYYY". -/
def toLocaleDateString (t : Int) : String :=
  let days := t / msPerDay
  let c := civilFromDays days
  toString c.2.1 ++ "/" ++ toString c.2.2 ++ "/" ++ toString c.1

/-- Model of Date.prototype.toLocaleString: date then time. -/
def toLocaleString (t : Int) : String :=
  toLocaleDateString t ++ ", " ++ toLocaleTimeString t

/-- The date part of Date.prototype.toISOString: "YYYY-MM-DD" (UTC). -/
def toISODateString (t : Int) : String :=
  let days := t / msPerDay
  let c := civilFromDays days
  toString c.1 ++ "-" ++ pad2 c.2.1 ++ "-" ++ pad2 c.2.2

/-- Full Date.prototype.toISOString model: "YYYY-MM-DDTHH:MM:SS.sssZ". -/
def toISOString (t : Int) : String :=
  toISODateString t ++ "T" ++ toLocaleTimeString t ++ "." ++ toString ((t % 1000) / 100) ++ toString ((t % 100) / 10) ++ toString (t % 10) ++ "Z"

/-! ### Data model (the interfaces of src/cache.ts) -/

/-- Person.details.person.name in cache.ts. -/
structure NameRec where
  fullName : Option String
deriving DecidableEq

/-- Person.details.person in cache.ts. -/
structure PersonRec where
  name : Option NameRec
  avatar : Option String
deriving DecidableEq

/-- Person.details.company in cache.ts. -/
structure CompanyRec where
  name : Option String
deriving DecidableEq

/-- Person.details in cache.ts. -/
structure PersonDetails where
  person : Option PersonRec
  company : Option CompanyRec
deriving DecidableEq

/-- interface Person of cache.ts. -/
structure Person where
  name : Option String
  email : Option String
  details : Option PersonDetails
deriving DecidableEq

/-- interface People of cache.ts. -/
structure People where
  title : Option String
  creator : Option Person
  attendees : Option (List Person)
deriving DecidableEq

/-- interface TranscriptSegment of cache.ts; the two timestamp strings are
represented by their epoch-millisecond values. -/
structure TranscriptSegment where
  id : String
  document_id : String
  start_timestamp : Int
  end_timestamp : Int
  text : String
  source : String
  is_final : Bool
deriving DecidableEq

/-- Document.google_calendar_event of cache.ts, with the nested
start/end dateTime strings flattened to their epoch values. -/
structure CalendarEvent where
  summary : Option String
  startDateTime : Option Int
  endDateTime : Option Int
deriving DecidableEq

/-- interface Document of cache.ts; created_at and updated_at are
represented by their epoch-millisecond values. -/
structure Document where
  id : String
  title : String
  created_at : Int
  updated_at : Int
  notes_markdown : Option String
  notes_plain : Option String
  summary : Option String
  overview : Option String
  people : Option People
  status : Option String
  type : Option String
  google_calendar_event : Option CalendarEvent
deriving DecidableEq

/-- interface CacheState of cache.ts; the two Record objects become
association lists. The unused documentPanels record (its values have
type unknown and no function under verification reads it) is omitted. -/
structure CacheState where
  documents : List (String × Document)
  transcripts : List (String × List TranscriptSegment)
deriving DecidableEq

/-- interface CacheData of cache.ts. -/
structure CacheData where
  state : CacheState
  version : Int
deriving DecidableEq

/-! ### Typed accessors (GranolaCache methods, cache.ts 89-127) -/

/-- GranolaCache.getDocuments: Object.values of the documents record. -/
def getDocuments (cache : CacheData) : List Document :=
  cache.state.documents.map (·.2)

/-- GranolaCache.getDocument: exact lookup by record key. -/
def getDocument (cache : CacheData) (id : String) : Option Document :=
  (cache.state.documents.find? (fun p => p.1 == id)).map (·.2)

/-- GranolaCache.getTranscript: transcripts[documentId] || []. A stored
array is truthy (even when empty), so the stored value is returned as is
and the fallback fires exactly when the key is absent. -/
def getTranscript (cache : CacheData) (documentId : String) : List TranscriptSegment :=
  match cache.state.transcripts.find? (fun p => p.1 == documentId) with
  | some p => p.2
  | none => []

/-- The chain a.details?.person?.name?.fullName used throughout the source. -/
def fullNameOf (a : Person) : Option String :=
  ((a.details.bind PersonDetails.person).bind PersonRec.name).bind NameRec.fullName

/-- GranolaCache.searchDocuments (cache.ts 102-115). -/
def searchDocuments (cache : CacheData) (query : String) : List Document :=
  let q := jsToLower query
  (getDocuments cache).filter fun doc =>
    let title := jsToLower doc.title
    let notes := jsToLower (doc.notes_plain.getD "")
    let attendees :=
      match doc.people.bind People.attendees with
      | some atts =>
        jsToLower (String.intercalate " " (atts.map fun a => jsOrStr (fullNameOf a) (jsOrStr a.email "")))
      | none => ""
    jsIncludes title q || jsIncludes notes q || jsIncludes attendees q

/-- GranolaCache.getRecentDocuments (cache.ts 117-127). `now` is the current
time in epoch ms. The source computes the cutoff with calendar arithmetic
(cutoff.setDate(cutoff.getDate() - days)), which in this timezone-free model
equals subtracting days * 24h. The sort comparator
new Date(b).getTime() - new Date(a).getTime() orders descending by
created_at; Array.prototype.sort is stable, modelled by mergeSort. -/
def getRecentDocuments (cache : CacheData) (now days : Int) : List Document :=
  let cutoff := now - days * msPerDay
  List.insertionSort (fun a b => b.created_at ≤ a.created_at)
    ((getDocuments cache).filter fun doc => decide (cutoff ≤ doc.created_at))

/-! ### Formatters (cache.ts 131-179) -/

/-- The attendee rendering of formatDocument and exportMeeting:
a.details?.person?.name?.fullName || a.email || "Unknown". -/
def resolveAttendee (a : Person) : String :=
  jsOrStr (fullNameOf a) (jsOrStr a.email "Unknown")

/-- The lines array built by formatDocument (cache.ts 131-161), before the
final join("\n"). -/
def formatDocumentLines (doc : Document) (includeNotes : Bool) : List String :=
  ["# " ++ doc.title, "", "**ID:** " ++ doc.id, "**Date:** " ++ toLocaleString doc.created_at]
  ++ (match doc.people with
      | some ppl =>
        let attendees := ((ppl.attendees.getD []).map resolveAttendee).filter fun s => s != ""
        if attendees.length > 0 then ["**Participants:** " ++ String.intercalate ", " attendees]
        else []
      | none => [])
  ++ (match doc.summary with
      | some s => if s != "" then ["", "## Summary", s] else []
      | none => [])
  ++ (if includeNotes then
        match doc.notes_markdown with
        | some n => if n != "" then ["", "## Notes", n] else []
        | none => []
      else [])

/-- formatDocument: the built lines joined with newlines. -/
def formatDocument (doc : Document) (includeNotes : Bool) : String :=
  String.intercalate "\n" (formatDocumentLines doc includeNotes)

/-- The order imposed by formatTranscript's sort comparator
new Date(a.start_timestamp).getTime() - new Date(b.start_timestamp).getTime():
ascending by start timestamp. Array.prototype.sort is stable, and a stable
sort under a total preorder has a unique result, modelled here by the
(stable) insertion sort. -/
def sortTranscript (segments : List TranscriptSegment) : List TranscriptSegment :=
  List.insertionSort (fun a b => a.start_timestamp ≤ b.start_timestamp) segments

/-- One rendered transcript line: [local time] text. -/
def transcriptLine (seg : TranscriptSegment) : String :=
  "[" ++ toLocaleTimeString seg.start_timestamp ++ "] " ++ seg.text

/-- formatTranscript (cache.ts 165-179): sentinel on the empty sequence,
otherwise the segments sorted ascending by start timestamp, one line per
segment, joined with newlines. -/
def formatTranscript (segments : List TranscriptSegment) : String :=
  if segments.length = 0 then "No transcript available."
  else String.intercalate "\n" ((sortTranscript segments).map transcriptLine)

/-- The caller's array after formatTranscript returns: Array.prototype.sort
reorders the array in place (it does not copy), so a non-empty argument is
left sorted; the empty case returns before the sort runs. -/
def formatTranscriptPost (segments : List TranscriptSegment) : List TranscriptSegment :=
  if segments.length = 0 then segments else sortTranscript segments

/-! ### Command dispatcher (the CLI entry file) -/

/-- Outcome of the partial-id resolution block that the CLI repeats verbatim
at the top of showMeeting and exportMeeting. ambiguous and notFound both end
in console.error + process.exit(1) at the call sites. -/
inductive Resolved where
  | found (doc : Document)
  | ambiguous (ms : List Document)
  | notFound
deriving DecidableEq

/-- The resolution block of showMeeting (and exportMeeting): identifiers
strictly shorter than 36 characters go through d.id.startsWith(id) filtering
(unique hit used, several hits ambiguous, none not-found); identifiers of
length 36 or more use the exact getDocument lookup only. -/
def resolveMeetingId (cache : CacheData) (id : String) : Resolved :=
  if id.length < 36 then
    match (getDocuments cache).filter fun d => jsStartsWith d.id id with
    | [m] => .found m
    | [] => .notFound
    | ms => .ambiguous ms
  else
    match getDocument cache id with
    | some d => .found d
    | none => .notFound

/-- The ambiguity error text: every candidate is listed with the first 12
characters of its identifier and its title. -/
def multipleMatchMsg (id : String) (ms : List Document) : String :=
  "Multiple meetings match \"" ++ id ++ "\". Be more specific:\n" ++
    String.intercalate "\n" (ms.map fun m => "  " ++ strTake m.id 12 ++ " - " ++ m.title)

/-- showMeeting: Except.error models console.error + process.exit(1); the ok
payload is the text written to standard output. -/
def showMeeting (cache : CacheData) (id : String) (includeTranscript : Bool) :
    Except String String :=
  match resolveMeetingId cache id with
  | .ambiguous ms => .error (multipleMatchMsg id ms)
  | .notFound => .error ("Meeting not found: " ++ id)
  | .found doc =>
    .ok (formatDocument doc true ++
      (if includeTranscript then "\n\n## Transcript\n\n" ++ formatTranscript (getTranscript cache doc.id)
       else ""))

/-- The slug characters kept by the export filename: [a-z0-9] after lowercasing. -/
def isSlugChar (c : Char) : Bool := ('a' ≤ c && c ≤ 'z') || c.isDigit

/-- Replace each maximal run of non-slug characters by a single dash,
modelling title.replace over the [^a-z0-9]+ pattern; the Bool records
whether the previous character was part of such a run. -/
def collapseRunsAux : List Char → Bool → List Char
  | [], _ => []
  | c :: t, prevNon =>
    if isSlugChar c then c :: collapseRunsAux t false
    else if prevNon then collapseRunsAux t true
    else '-' :: collapseRunsAux t true

/-- The export file slug: lowercased title, non-alphanumeric runs collapsed
to a single dash, truncated to 50 characters. -/
def safeTitleOf (title : String) : String :=
  strTake (String.mk (collapseRunsAux (jsToLower title).toList false)) 50

/-- The markdown content written by exportMeeting (frontmatter, heading,
metadata, optional summary, notes, transcript). -/
def exportContent (doc : Document) (transcript : List TranscriptSegment) : String :=
  let attendees := (((doc.people.bind People.attendees).getD []).map resolveAttendee).filter fun s => s != ""
  "---\nid: " ++ doc.id ++
  "\ntitle: \"" ++ doc.title.replace "\"" "\\\"" ++ "\"" ++
  "\ndate: " ++ toISOString doc.created_at ++
  "\nparticipants: [" ++ String.intercalate ", " (attendees.map fun a => "\"" ++ a ++ "\"") ++ "]" ++
  "\n---\n\n# " ++ doc.title ++
  "\n\n**Date:** " ++ toLocaleString doc.created_at ++
  "\n**Participants:** " ++ (if String.intercalate ", " attendees = "" then "Unknown" else String.intercalate ", " attendees) ++
  "\n\n" ++ (match doc.summary with
             | some s => if s != "" then "## Summary\n\n" ++ s ++ "\n" else ""
             | none => "") ++
  "\n## Notes\n\n" ++ jsOrStr doc.notes_markdown "No notes available." ++
  "\n\n## Transcript\n\n" ++ formatTranscript transcript ++ "\n"

/-- exportMeeting: same resolution block as showMeeting; on success the
written path and file content are returned (writeFileSync is modelled by
returning the pair; directory creation has no observable effect here). -/
def exportMeeting (cache : CacheData) (id : String) (outputDir : String) :
    Except String (String × String) :=
  match resolveMeetingId cache id with
  | .ambiguous ms => .error (multipleMatchMsg id ms)
  | .notFound => .error ("Meeting not found: " ++ id)
  | .found doc =>
    let transcript := getTranscript cache doc.id
    let filename := toISODateString doc.created_at ++ "-" ++ safeTitleOf doc.title ++ ".md"
    .ok (outputDir ++ "/" ++ filename, exportContent doc transcript)

/-- A flag value in the parsed argument vector: the consumed following token,
or boolean true when none was consumed. -/
inductive FlagVal where
  | str (s : String)
  | boolTrue
deriving DecidableEq

/-- The result of parseArgs. -/
structure ParsedArgs where
  command : String
  positional : List String
  flags : List (String × FlagVal)
deriving DecidableEq

/-- The parseArgs loop. command starts as the empty string (falsy in the JS
!command test); a "--" token records a flag and consumes the next token as
its value when that token is non-empty and does not start with "-";
non-flag tokens after the command become positional; other "-" tokens are
skipped. Flag assignments are appended (the JS object keeps the last one,
see flagLookup). -/
def parseArgsGo : List String → String → List String → List (String × FlagVal) → ParsedArgs
  | [], cmd, pos, fs => ⟨cmd, pos, fs⟩
  | [arg], cmd, pos, fs =>
    -- final iteration of the loop: args[i + 1] is undefined, so a "--" flag
    -- here is always boolean true
    if cmd == "" && !jsStartsWith arg "-" then ⟨arg, pos, fs⟩
    else if jsStartsWith arg "--" then ⟨cmd, pos, fs ++ [(strDrop arg 2, .boolTrue)]⟩
    else if !jsStartsWith arg "-" then ⟨cmd, pos ++ [arg], fs⟩
    else ⟨cmd, pos, fs⟩
  | arg :: next :: rest2, cmd, pos, fs =>
    if cmd == "" && !jsStartsWith arg "-" then
      parseArgsGo (next :: rest2) arg pos fs
    else if jsStartsWith arg "--" then
      (if next != "" && !jsStartsWith next "-" then
        parseArgsGo rest2 cmd pos (fs ++ [(strDrop arg 2, .str next)])
      else
        parseArgsGo (next :: rest2) cmd pos (fs ++ [(strDrop arg 2, .boolTrue)]))
    else if !jsStartsWith arg "-" then
      parseArgsGo (next :: rest2) cmd (pos ++ [arg]) fs
    else
      parseArgsGo (next :: rest2) cmd pos fs

/-- parseArgs of the CLI entry file. -/
def parseArgs (args : List String) : ParsedArgs := parseArgsGo args "" [] []

/-- Lookup in the flags record: the JS object keeps the last assignment. -/
def flagLookup (fs : List (String × FlagVal)) (k : String) : Option FlagVal :=
  (fs.reverse.find? fun p => p.1 == k).map (·.2)

/-- Accumulate a leading run of decimal digits. -/
def digitsVal : List Char → Nat → Nat × List Char
  | c :: t, acc => if c.isDigit then digitsVal t (acc * 10 + (c.toNat - 48)) else (acc, c :: t)
  | [], acc => (acc, [])

/-- Parse a leading digit run; none when the first character is not a digit. -/
def parseNumStart : List Char → Option (Nat × List Char)
  | c :: t => if c.isDigit then some (digitsVal (c :: t) 0) else none
  | [] => none

/-- JS parseInt on a string: skip leading whitespace, optional sign, then the
leading decimal digit run (trailing garbage ignored); none models NaN.
Hex prefixes are not modelled; no claim depends on them. -/
def parseIntStr (s : String) : Option Int :=
  match s.toList.dropWhile (fun c => c == ' ' || c == '\t' || c == '\n' || c == '\r') with
  | '-' :: t => (parseNumStart t).map fun p => -(p.1 : Int)
  | '+' :: t => (parseNumStart t).map fun p => (p.1 : Int)
  | t => (parseNumStart t).map fun p => (p.1 : Int)

/-- parseInt applied to a flag value as in main: parseInt(undefined) and
parseInt(true) are NaN (none). -/
def jsParseIntFlag : Option FlagVal → Option Int
  | some (.str s) => parseIntStr s
  | some .boolTrue => none
  | none => none

/-- The expression parseInt(flags.days as string) || 7 in main's list branch:
NaN and 0 are both falsy, so both fall back to 7. -/
def listDays (flags : List (String × FlagVal)) : Int :=
  match jsParseIntFlag (flagLookup flags "days") with
  | some n => if n = 0 then 7 else n
  | none => 7

/-- Model of Date.prototype.toLocaleTimeString with 2-digit hour and minute
options, as used by listMeetings. -/
def toLocaleTimeStringHM (t : Int) : String :=
  let secs := (t / 1000) % 86400
  pad2 (secs / 3600) ++ ":" ++ pad2 ((secs % 3600) / 60)

/-- JS email.split("@")[0]. -/
def emailLocalPart (e : String) : String :=
  String.mk (e.toList.takeWhile fun c => c != '@')

/-- The optional-string fallback x || y where both sides are optional
strings (undefined and "" falsy). -/
def jsOrOpt : Option String → Option String → Option String
  | some s, y => if s = "" then y else some s
  | none, y => y

/-- The attendee summary of one list entry: first three attendees, rendered
as resolved full name else the part of the email before "@", dropped when
neither yields a non-empty string, joined with ", " (undefined replaced by
"" via || ""). -/
def listEntryAttendees (doc : Document) : String :=
  match doc.people.bind People.attendees with
  | some atts =>
    String.intercalate ", " ((atts.take 3).filterMap fun a =>
      match jsOrOpt (fullNameOf a) (a.email.map emailLocalPart) with
      | some s => if s = "" then none else some s
      | none => none)
  | none => ""

/-- The lines printed by listMeetings for one document. -/
def listEntryLines (doc : Document) : List String :=
  ["- **" ++ doc.title ++ "**",
   "  ID: `" ++ strTake doc.id 8 ++ "` | " ++ toLocaleDateString doc.created_at ++ " " ++ toLocaleTimeStringHM doc.created_at]
  ++ (if listEntryAttendees doc != "" then ["  With: " ++ listEntryAttendees doc] else [])
  ++ [""]

/-- listMeetings of the CLI entry file: the full text written to standard
output (console.log lines joined with newlines). -/
def listMeetings (cache : CacheData) (now days : Int) : String :=
  let docs := getRecentDocuments cache now days
  if docs.length = 0 then "No meetings found in the last " ++ toString days ++ " days."
  else
    String.intercalate "\n"
      ((["## Recent Meetings (last " ++ toString days ++ " days)\n"]
        ++ (docs.map listEntryLines).flatten
        ++ ["\nTotal: " ++ toString docs.length ++ " meetings"]))

/-! ### Raw JSON layer (the cache loader, cache.ts 69-100)

The constructor's double-decode logic and the defaulting of getDocuments /
getTranscript are about untyped JSON values, so they are modelled over a
JSON value type. Numbers are modelled by Int (no claim involves fractional
payloads). -/

inductive Json where
  | null
  | bool (b : Bool)
  | num (n : Int)
  | str (s : String)
  | arr (elems : List Json)
  | obj (fields : List (String × Json))

/-- The open-brace character, written by code point. -/
def lbrace : Char := Char.ofNat 123

/-- The close-brace character, written by code point. -/
def rbrace : Char := Char.ofNat 125

/-- Skip JSON whitespace. -/
def skipWs : List Char → List Char
  | c :: t => if c == ' ' || c == '\t' || c == '\n' || c == '\r' then skipWs t else c :: t
  | [] => []

/-- Parse the characters of a JSON string literal after the opening quote,
up to the closing quote; a small escape subset suffices for the claims. -/
def parseStrChars : List Char → Option (List Char × List Char)
  | [] => none
  | '"' :: t => some ([], t)
  | '\\' :: e :: t =>
    (parseStrChars t).bind fun p =>
      match e with
      | '"' => some ('"' :: p.1, p.2)
      | '\\' => some ('\\' :: p.1, p.2)
      | 'n' => some ('\n' :: p.1, p.2)
      | 't' => some ('\t' :: p.1, p.2)
      | '/' => some ('/' :: p.1, p.2)
      | _ => none
  | c :: t => (parseStrChars t).map fun p => (c :: p.1, p.2)

mutual

/-- Parse one JSON value; the fuel bounds recursion depth. -/
def parseJsonVal : Nat → List Char → Option (Json × List Char)
  | 0, _ => none
  | fuel + 1, input =>
    match skipWs input with
    | 'n' :: 'u' :: 'l' :: 'l' :: t => some (.null, t)
    | 't' :: 'r' :: 'u' :: 'e' :: t => some (.bool true, t)
    | 'f' :: 'a' :: 'l' :: 's' :: 'e' :: t => some (.bool false, t)
    | '"' :: t => (parseStrChars t).map fun p => (.str (String.mk p.1), p.2)
    | '[' :: t =>
      (match skipWs t with
       | ']' :: t2 => some (.arr [], t2)
       | t2 => (parseJsonElems fuel t2).map fun p => (.arr p.1, p.2))
    | '-' :: t => (parseNumStart t).map fun p => (.num (-(p.1 : Int)), p.2)
    | c :: t =>
      if c == lbrace then
        match skipWs t with
        | c2 :: t2 =>
          if c2 == rbrace then some (.obj [], t2)
          else (parseJsonFields fuel (c2 :: t2)).map fun p => (.obj p.1, p.2)
        | [] => none
      else if c.isDigit then
        (parseNumStart (c :: t)).map fun p => (.num (p.1 : Int), p.2)
      else none
    | [] => none

/-- Parse the comma-separated elements of a non-empty array, consuming the
closing bracket. -/
def parseJsonElems : Nat → List Char → Option (List Json × List Char)
  | 0, _ => none
  | fuel + 1, input =>
    (parseJsonVal fuel input).bind fun p =>
      match skipWs p.2 with
      | ',' :: t => (parseJsonElems fuel t).map fun q => (p.1 :: q.1, q.2)
      | ']' :: t => some ([p.1], t)
      | _ => none

/-- Parse the comma-separated key-value pairs of a non-empty object,
consuming the closing brace. -/
def parseJsonFields : Nat → List Char → Option (List (String × Json) × List Char)
  | 0, _ => none
  | fuel + 1, input =>
    match skipWs input with
    | '"' :: t =>
      (parseStrChars t).bind fun pk =>
        match skipWs pk.2 with
        | ':' :: t2 =>
          (parseJsonVal fuel t2).bind fun pv =>
            match skipWs pv.2 with
            | c :: t3 =>
              if c == ',' then (parseJsonFields fuel t3).map fun q => ((String.mk pk.1, pv.1) :: q.1, q.2)
              else if c == rbrace then some ([(String.mk pk.1, pv.1)], t3)
              else none
            | [] => none
        | _ => none
    | _ => none

end

/-- JSON.parse model: parse one value with enough fuel and require only
whitespace after it; none models the thrown SyntaxError. -/
def Json.parse (s : String) : Option Json :=
  match parseJsonVal (2 * s.length + 2) s.toList with
  | some (v, rest) => if (skipWs rest).isEmpty then some v else none
  | none => none

/-- Property access outer.key on a JSON value: none models undefined
(also for non-objects). -/
def Json.getField : Json → String → Option Json
  | .obj fields, k => ((fields.find? fun p => p.1 == k).map (·.2))
  | _, _ => none

/-- JS truthiness of a JSON value. -/
def jsTruthy : Json → Bool
  | .null => false
  | .bool b => b
  | .num n => n != 0
  | .str s => s != ""
  | .arr _ => true
  | .obj _ => true

/-- The GranolaCache constructor after the outer JSON.parse succeeded
(cache.ts 79-86): if typeof outer.cache === "string" the field is decoded a
second time (none models the constructor throwing on a failed parse);
otherwise this.data = outer.cache || outer, so a truthy non-string field is
used directly and a missing or falsy field falls back to the whole
top-level value. -/
def loadCacheData (outer : Json) : Option Json :=
  match outer.getField "cache" with
  | some (.str s) => Json.parse s
  | some v => if jsTruthy v then some v else some outer
  | none => some outer

/-- Object.values on a JSON value: fields of an object, elements of an
array, one-character strings for a string, empty for other primitives
(null and undefined never reach it behind the truthiness guard). -/
def jsObjectValues : Json → List Json
  | .obj fields => fields.map (·.2)
  | .arr elems => elems
  | .str s => s.toList.map fun c => .str c.toString
  | _ => []

/-- getDocuments at the raw JSON level (cache.ts 89-92): the guard
!this.data?.state?.documents returns [] for a missing or falsy field,
then Object.values runs on whatever truthy value is there. -/
def getDocumentsRaw (data : Json) : List Json :=
  match (data.getField "state").bind (fun st => st.getField "documents") with
  | some docs => if jsTruthy docs then jsObjectValues docs else []
  | none => []

/-- getTranscript at the raw JSON level (cache.ts 98-100):
this.data?.state?.transcripts?.[documentId] || []. -/
def getTranscriptRaw (data : Json) (documentId : String) : Json :=
  match ((data.getField "state").bind fun st => st.getField "transcripts").bind
      (fun ts => ts.getField documentId) with
  | some v => if jsTruthy v then v else .arr []
  | none => .arr []

/-! ### Helper lemmas and order instances -/

theorem jsIncludes_empty (s : String) : jsIncludes s "" = true := by
  show containsSub s.toList [] = true
  cases s.toList <;> rfl

instance : IsTotal TranscriptSegment fun a b => a.start_timestamp ≤ b.start_timestamp :=
  ⟨fun a b => Int.le_total a.start_timestamp b.start_timestamp⟩

instance : IsTrans TranscriptSegment fun a b => a.start_timestamp ≤ b.start_timestamp :=
  ⟨fun _ _ _ h₁ h₂ => le_trans h₁ h₂⟩

instance : IsTotal Document fun a b => b.created_at ≤ a.created_at :=
  ⟨fun a b => Int.le_total b.created_at a.created_at⟩

instance : IsTrans Document fun a b => b.created_at ≤ a.created_at :=
  ⟨fun _ _ _ h₁ h₂ => le_trans h₂ h₁⟩

/-- Two permuted lists with equal, duplicate-free key sequences are equal. -/
theorem eq_of_perm_of_map_eq {α β : Type} (f : α → β) :
    ∀ l₁ l₂ : List α, l₁.Perm l₂ → l₁.map f = l₂.map f → (l₁.map f).Nodup → l₁ = l₂ := by
  intro l₁
  induction l₁ with
  | nil =>
    intro l₂ hp _ _
    exact hp.nil_eq
  | cons a t ih =>
    intro l₂ hp hm hnd
    cases l₂ with
    | nil => exact List.noConfusion hp.symm.nil_eq
    | cons b t₂ =>
      simp only [List.map_cons, List.cons.injEq] at hm
      obtain ⟨hfab, hmt⟩ := hm
      have hab : a = b := by
        have hamem : a ∈ b :: t₂ := hp.subset (List.mem_cons_self a t)
        rcases List.mem_cons.mp hamem with h | h
        · exact h
        · exfalso
          have hfmem : f a ∈ t₂.map f := List.mem_map_of_mem f h
          rw [← hmt] at hfmem
          simp only [List.map_cons, List.nodup_cons] at hnd
          exact hnd.1 hfmem
      have htail : t = t₂ := by
        refine ih t₂ ?_ hmt ?_
        · subst hab
          exact hp.cons_inv
        · simp only [List.map_cons, List.nodup_cons] at hnd
          exact hnd.2
      rw [hab, htail]

/-- Two permuted lists, both sorted by an Int key that is duplicate-free,
are equal (the stable-sort result is unique). -/
theorem sorted_eq_of_perm {α : Type} (f : α → Int) (l₁ l₂ : List α)
    (hp : l₁.Perm l₂)
    (hs₁ : l₁.Pairwise fun a b => f a ≤ f b)
    (hs₂ : l₂.Pairwise fun a b => f a ≤ f b)
    (hnd : (l₁.map f).Nodup) : l₁ = l₂ := by
  refine eq_of_perm_of_map_eq f l₁ l₂ hp ?_ hnd
  exact List.eq_of_perm_of_sorted (hp.map f)
    (List.pairwise_map.mpr hs₁) (List.pairwise_map.mpr hs₂)

theorem jsOrStr_ne (x : Option String) (d : String) (hd : d ≠ "") : jsOrStr x d ≠ "" := by
  cases x with
  | none => simpa [jsOrStr] using hd
  | some s => by_cases hs : s = "" <;> simp [jsOrStr, hs, hd]

/-- The attendee resolver of formatDocument never yields the empty string
(its last fallback is "Unknown"), so the filter(Boolean) step keeps every
attendee. -/
theorem resolveAttendee_ne (a : Person) : resolveAttendee a ≠ "" :=
  jsOrStr_ne _ _ (jsOrStr_ne _ _ (by decide))

theorem resolveAttendee_filter (atts : List Person) :
    (atts.map resolveAttendee).filter (fun s => s != "") = atts.map resolveAttendee := by
  refine List.filter_eq_self.mpr ?_
  intro s hs
  obtain ⟨a, _, rfl⟩ := List.mem_map.mp hs
  simpa using resolveAttendee_ne a

/-! ### Concrete fixtures for witnesses and counterexamples -/

def segFirst : TranscriptSegment :=
  ⟨"seg-1", "doc-1", 1000, 2000, "first", "microphone", true⟩

def segSecond : TranscriptSegment :=
  ⟨"seg-2", "doc-1", 5000, 6000, "second", "microphone", true⟩

def segTieA : TranscriptSegment :=
  ⟨"seg-a", "doc-1", 1000, 2000, "alpha", "microphone", true⟩

def segTieB : TranscriptSegment :=
  ⟨"seg-b", "doc-1", 1000, 2000, "beta", "system", false⟩

def emptyDoc (id title : String) (created : Int) : Document :=
  ⟨id, title, created, created, none, none, none, none, none, none, none, none⟩

def cacheOfDocs (docs : List Document) : CacheData :=
  ⟨⟨docs.map (fun d => (d.id, d)), []⟩, 3⟩

def docFutureA : Document := emptyDoc "aaaa1111-0000-4000-8000-000000000001" "Future A" 1000005

def docFutureB : Document := emptyDoc "bbbb2222-0000-4000-8000-000000000002" "Future B" 1000005

def cacheFuture : CacheData := cacheOfDocs [docFutureA, docFutureB]

def docAbc1 : Document := emptyDoc "abc12300-0000-4000-8000-000000000001" "Weekly Sync" 0

def docAbc9 : Document := emptyDoc "abc99900-0000-4000-8000-000000000002" "Planning" 0

def cacheAbc : CacheData := cacheOfDocs [docAbc1, docAbc9]

def personAnon : Person := ⟨none, none, none⟩

def docAnonAttendee : Document :=
  ⟨"id-3", "Standup", 0, 0, none, none, none, none, some ⟨none, none, some [personAnon]⟩,
   none, none, none⟩

def docRoadmap : Document := emptyDoc "id-7" "Roadmap Review" 0

def cacheRoadmap : CacheData := cacheOfDocs [docRoadmap]

def cacheC5 : CacheData := ⟨⟨[("doc-1", emptyDoc "doc-1" "Sync" 0)], [("doc-1", [segFirst])]⟩, 3⟩

def outerNoCache : Json := .obj [("state", .obj [("documents", .obj [("d1", .num 1)])])]

def dataArrDocs : Json := .obj [("state", .obj [("documents", .arr [.num 3])])]

def outerStrCache : Json := .obj [("cache", .str "\x7b\"state\": 5\x7d")]

/-! ### Claims -/

/-- C5: for every snapshot and every document identifier absent from the
snapshot's transcripts mapping, getTranscript returns the empty sequence
(and, being a total function, never raises). -/
theorem spec_C5 (cache : CacheData) (id : String)
    (habs : ∀ p ∈ cache.state.transcripts, p.1 ≠ id) :
    getTranscript cache id = [] := by
  unfold getTranscript
  have hnone : cache.state.transcripts.find? (fun p => p.1 == id) = none :=
    List.find?_eq_none.mpr fun p hp => by simpa using habs p hp
  rw [hnone]

/-- C5 witness: the concrete cache holds a transcript only for "doc-1";
looking up "doc-2" yields the empty sequence. -/
theorem spec_C5_witness : getTranscript cacheC5 "doc-2" = [] :=
  spec_C5 cacheC5 "doc-2" (by decide)

/-- C7: search is case-insensitive — two queries with the same lowercasing
(in particular any two case-variants of one word) give identical result
lists, because the query is lowercased before matching. -/
theorem spec_C7 (cache : CacheData) (q₁ q₂ : String)
    (h : jsToLower q₁ = jsToLower q₂) :
    searchDocuments cache q₁ = searchDocuments cache q₂ := by
  unfold searchDocuments
  rw [h]

/-- C7 witness: "Roadmap" and "roadmap" give identical search results on a
concrete cache. -/
theorem spec_C7_witness :
    searchDocuments cacheRoadmap "Roadmap" = searchDocuments cacheRoadmap "roadmap" :=
  spec_C7 cacheRoadmap "Roadmap" "roadmap" (by decide)

/-- C8: search with the empty query returns every document of the snapshot:
the empty string is a substring of every field, including the empty strings
contributed by empty or absent fields. -/
theorem spec_C8 (cache : CacheData) : searchDocuments cache "" = getDocuments cache := by
  unfold searchDocuments
  have h0 : jsToLower "" = "" := rfl
  rw [h0]
  refine List.filter_eq_self.mpr fun doc _ => ?_
  simp [jsIncludes_empty]

/-- C2 is a code bug: Array.prototype.sort reorders the caller's array in
place (formatTranscript does not copy before sorting), so after the call on
the out-of-order input [segSecond, segFirst] the caller's sequence is
[segFirst, segSecond] — not the original order that the claim (and the
spec's purity requirement) promise. -/
theorem spec_C2_code_bug :
    formatTranscriptPost [segSecond, segFirst] = [segFirst, segSecond] ∧
    [segFirst, segSecond] ≠ [segSecond, segFirst] := by
  exact ⟨by decide, by decide⟩

/-- C10: the list dispatcher computes parseInt(flags.days) || 7, and 0 is
falsy in JS, so --days 0 falls back to 7 exactly like an unspecified or
non-numeric flag; consequently list --days 0 produces the same output as
list --days 7, and no argument vector can make the dispatcher pass 0 days
to getRecentDocuments. -/
theorem spec_C10 :
    listDays (parseArgs ["list", "--days", "0"]).flags = 7 ∧
    listDays (parseArgs ["list", "--days", "0"]).flags =
      listDays (parseArgs ["list", "--days", "7"]).flags ∧
    listDays (parseArgs ["list"]).flags = 7 ∧
    listDays (parseArgs ["list", "--days", "soon"]).flags = 7 ∧
    (∀ (cache : CacheData) (now : Int),
      listMeetings cache now (listDays (parseArgs ["list", "--days", "0"]).flags) =
        listMeetings cache now (listDays (parseArgs ["list", "--days", "7"]).flags)) ∧
    ∀ args : List String, listDays (parseArgs args).flags ≠ 0 := by
  refine ⟨by decide, by decide, by decide, by decide, ?_, ?_⟩
  · intro cache now
    rw [show listDays (parseArgs ["list", "--days", "0"]).flags =
      listDays (parseArgs ["list", "--days", "7"]).flags from by decide]
  · intro args
    unfold listDays
    cases h : jsParseIntFlag (flagLookup (parseArgs args).flags "days") with
    | none => simp
    | some n =>
      by_cases hn : n = 0
      · simp [hn]
      · simp [hn]

/-- C10 witness: concrete applications of the two quantified parts. -/
theorem spec_C10_witness :
    (listMeetings cacheRoadmap 1000 (listDays (parseArgs ["list", "--days", "0"]).flags) =
      listMeetings cacheRoadmap 1000 (listDays (parseArgs ["list", "--days", "7"]).flags)) ∧
    listDays (parseArgs ["list", "--days", "31"]).flags ≠ 0 :=
  ⟨spec_C10.2.2.2.2.1 cacheRoadmap 1000, spec_C10.2.2.2.2.2 ["list", "--days", "31"]⟩

/-- C1: for show and export, an identifier shorter than 36 characters is
resolved by prefix — a unique prefix match is the document used and both
commands succeed; two or more prefix matches make both commands fail
(Except.error models console.error + exit 1) with the message listing every
candidate, choosing none; an identifier of length 36 or more resolves
exactly when the exact-match lookup finds it (no prefix fallback). -/
theorem spec_C1 :
    (∀ (cache : CacheData) (id : String) (d : Document),
      id.length < 36 →
      (getDocuments cache).filter (fun x => jsStartsWith x.id id) = [d] →
      resolveMeetingId cache id = .found d ∧
      (∀ tr, ∃ out, showMeeting cache id tr = .ok out) ∧
      (∀ dir, ∃ res, exportMeeting cache id dir = .ok res)) ∧
    (∀ (cache : CacheData) (id : String),
      id.length < 36 →
      2 ≤ ((getDocuments cache).filter fun x => jsStartsWith x.id id).length →
      (∀ tr, showMeeting cache id tr =
        .error (multipleMatchMsg id ((getDocuments cache).filter fun x => jsStartsWith x.id id))) ∧
      (∀ dir, exportMeeting cache id dir =
        .error (multipleMatchMsg id ((getDocuments cache).filter fun x => jsStartsWith x.id id)))) ∧
    (∀ (cache : CacheData) (id : String) (d : Document),
      36 ≤ id.length →
      (resolveMeetingId cache id = .found d ↔ getDocument cache id = some d)) := by
  refine ⟨?_, ?_, ?_⟩
  · intro cache id d hlen hfilter
    have hres : resolveMeetingId cache id = .found d := by
      unfold resolveMeetingId
      rw [if_pos hlen, hfilter]
    refine ⟨hres, fun tr => ⟨formatDocument d true ++
        (if tr then "\n\n## Transcript\n\n" ++ formatTranscript (getTranscript cache d.id)
         else ""), ?_⟩,
      fun dir => ⟨(dir ++ "/" ++ (toISODateString d.created_at ++ "-" ++ safeTitleOf d.title ++ ".md"),
        exportContent d (getTranscript cache d.id)), ?_⟩⟩
    · unfold showMeeting
      rw [hres]
    · unfold exportMeeting
      rw [hres]
  · intro cache id hlen hcount
    have hres : resolveMeetingId cache id =
        .ambiguous ((getDocuments cache).filter fun x => jsStartsWith x.id id) := by
      unfold resolveMeetingId
      rw [if_pos hlen]
      cases h : (getDocuments cache).filter (fun x => jsStartsWith x.id id) with
      | nil => rw [h] at hcount; simp at hcount
      | cons a t =>
        cases t with
        | nil => rw [h] at hcount; simp at hcount
        | cons b t2 => rfl
    refine ⟨fun tr => ?_, fun dir => ?_⟩
    · unfold showMeeting
      rw [hres]
    · unfold exportMeeting
      rw [hres]
  · intro cache id d hlen
    unfold resolveMeetingId
    rw [if_neg (by omega)]
    cases hd : getDocument cache id <;> simp

/-- C1 witness: on a cache with identifiers "abc12300-..." and "abc99900-..."
(each 36 characters), "abc1" resolves uniquely, "abc" is ambiguous with both
candidates listed, and the full identifier resolves by exact match. -/
theorem spec_C1_witness :
    resolveMeetingId cacheAbc "abc1" = .found docAbc1 ∧
    (showMeeting cacheAbc "abc" false =
      .error (multipleMatchMsg "abc" ((getDocuments cacheAbc).filter fun x => jsStartsWith x.id "abc"))) ∧
    (resolveMeetingId cacheAbc "abc12300-0000-4000-8000-000000000001" = .found docAbc1 ↔
      getDocument cacheAbc "abc12300-0000-4000-8000-000000000001" = some docAbc1) :=
  ⟨(spec_C1.1 cacheAbc "abc1" docAbc1 (by decide) (by decide)).1,
   (spec_C1.2.1 cacheAbc "abc" (by decide) (by decide)).1 false,
   spec_C1.2.2 cacheAbc "abc12300-0000-4000-8000-000000000001" docAbc1 (by decide)⟩

/-- C3 counterexample: an attendee with neither a resolved full name nor an
email is rendered as the placeholder "Unknown" ("Unknown" is truthy, so the
filter(Boolean) step keeps it) and the participants line is present — the
attendee is not silently dropped as the claim states. -/
theorem spec_C3_counterexample :
    resolveAttendee personAnon = "Unknown" ∧
    formatDocumentLines docAnonAttendee false =
      ["# Standup", "", "**ID:** id-3", "**Date:** " ++ toLocaleString 0,
       "**Participants:** Unknown"] := by
  exact ⟨by decide, by decide⟩

/-- C3 amended: each attendee is rendered as the resolved full name when
present and non-empty, else the email when present and non-empty, else the
placeholder "Unknown"; no attendee contributes nothing — the rendered
participant list keeps exactly one entry per attendee, and a document with
a non-empty attendee list gets a participants line listing all of them. -/
theorem spec_C3 :
    (∀ (a : Person) (fn : String),
      fullNameOf a = some fn → fn ≠ "" → resolveAttendee a = fn) ∧
    (∀ (a : Person) (em : String),
      (fullNameOf a = none ∨ fullNameOf a = some "") →
      a.email = some em → em ≠ "" → resolveAttendee a = em) ∧
    (∀ a : Person,
      (fullNameOf a = none ∨ fullNameOf a = some "") →
      (a.email = none ∨ a.email = some "") → resolveAttendee a = "Unknown") ∧
    (∀ atts : List Person,
      ((atts.map resolveAttendee).filter (fun s => s != "")).length = atts.length) ∧
    (∀ (doc : Document) (ppl : People) (atts : List Person) (includeNotes : Bool),
      doc.people = some ppl → ppl.attendees = some atts → atts ≠ [] →
      "**Participants:** " ++ String.intercalate ", " (atts.map resolveAttendee) ∈
        formatDocumentLines doc includeNotes) := by
  refine ⟨?_, ?_, ?_, ?_, ?_⟩
  · intro a fn hname hne
    unfold resolveAttendee
    rw [hname]
    simp [jsOrStr, hne]
  · intro a em hname hemail hne
    unfold resolveAttendee
    rcases hname with h | h <;> rw [h, hemail] <;> simp [jsOrStr, hne]
  · intro a hname hemail
    unfold resolveAttendee
    rcases hname with h | h <;> rcases hemail with h2 | h2 <;> rw [h, h2] <;> simp [jsOrStr]
  · intro atts
    rw [resolveAttendee_filter, List.length_map]
  · intro doc ppl atts includeNotes hp ha hne
    have hlen : 0 < (atts.map resolveAttendee).length := by
      rw [List.length_map]
      exact List.length_pos.mpr hne
    unfold formatDocumentLines
    simp only [hp, ha, Option.getD_some, resolveAttendee_filter]
    rw [if_pos hlen]
    simp

/-- C3 witness: concrete applications of every quantified part. -/
theorem spec_C3_witness :
    resolveAttendee ⟨none, none, some ⟨some ⟨some ⟨some "Ada Lovelace"⟩, none⟩, none⟩⟩ = "Ada Lovelace" ∧
    resolveAttendee ⟨none, some "ada@example.com", none⟩ = "ada@example.com" ∧
    resolveAttendee personAnon = "Unknown" ∧
    (([personAnon].map resolveAttendee).filter (fun s => s != "")).length = 1 ∧
    "**Participants:** " ++ String.intercalate ", " ([personAnon].map resolveAttendee) ∈
      formatDocumentLines docAnonAttendee false :=
  ⟨spec_C3.1 _ "Ada Lovelace" (by decide) (by decide),
   spec_C3.2.1 _ "ada@example.com" (Or.inl (by decide)) (by decide) (by decide),
   spec_C3.2.2.1 personAnon (Or.inl (by decide)) (Or.inl (by decide)),
   spec_C3.2.2.2.1 [personAnon],
   spec_C3.2.2.2.2 docAnonAttendee ⟨none, none, some [personAnon]⟩ [personAnon] false
     (by decide) (by decide) (by decide)⟩

/-- C4 counterexample: at now = 1000000 both fixture documents are created
at 1000005 > now, yet getRecentDocuments ... 7 returns both (the filter has
no upper bound at the current instant), and the result carries two equal
adjacent creation timestamps of distinct documents, so it is not strictly
descending. -/
theorem spec_C4_counterexample :
    getRecentDocuments cacheFuture 1000000 7 = [docFutureA, docFutureB] ∧
    1000000 < docFutureA.created_at ∧
    docFutureA.created_at = docFutureB.created_at ∧
    docFutureA ≠ docFutureB := by
  exact ⟨by decide, by decide, by decide, by decide⟩

/-- C4 amended: for every positive days, getRecentDocuments returns exactly
the documents with creation timestamp ≥ now − days·24h (inclusive lower
bound, but no upper bound — future-dated documents are included), as a
permutation of the filtered enumeration, and the result is sorted
descending by creation timestamp non-strictly (equal timestamps are
allowed and keep their enumeration order, the sort being stable). -/
theorem spec_C4 (cache : CacheData) (now days : Int) (_hdays : 0 < days) :
    (getRecentDocuments cache now days).Perm
      ((getDocuments cache).filter fun doc => decide (now - days * msPerDay ≤ doc.created_at)) ∧
    (getRecentDocuments cache now days).Pairwise (fun a b => b.created_at ≤ a.created_at) ∧
    ∀ d, d ∈ getRecentDocuments cache now days ↔
      d ∈ getDocuments cache ∧ now - days * msPerDay ≤ d.created_at := by
  refine ⟨?_, ?_, ?_⟩
  · exact List.perm_insertionSort _ _
  · exact List.sorted_insertionSort _ _
  · intro d
    unfold getRecentDocuments
    constructor
    · intro hd
      have hdf := (List.perm_insertionSort _ _).mem_iff.mp hd
      have hmem := List.mem_filter.mp hdf
      exact ⟨hmem.1, by simpa using hmem.2⟩
    · intro hd
      exact (List.perm_insertionSort _ _).mem_iff.mpr
        (List.mem_filter.mpr ⟨hd.1, by simpa using hd.2⟩)

/-- C4 witness: the amended statement applied at a concrete cache, instant
and positive window. -/
theorem spec_C4_witness :
    (0 : Int) < 7 ∧
    (getRecentDocuments cacheRoadmap 1000 7).Perm
      ((getDocuments cacheRoadmap).filter fun doc => decide (1000 - 7 * msPerDay ≤ doc.created_at)) :=
  ⟨by decide, (spec_C4 cacheRoadmap 1000 7 (by decide)).1⟩

/-- C9 counterexample: two segments with equal start timestamps but
different texts. The sort is stable, so feeding them in the two orders
yields two different outputs — the claim's "any permutation yields
identical output" fails when start timestamps tie. -/
theorem spec_C9_counterexample :
    formatTranscript [segTieA, segTieB] ≠ formatTranscript [segTieB, segTieA] := by
  decide

/-- C9 amended: formatTranscript on the empty sequence is the fixed
sentinel (not the empty string); on a non-empty sequence it renders exactly
one line per segment, in ascending start-timestamp order (the rendered
sequence is a sorted permutation of the input); and two permutations of the
same segments yield identical output provided the start timestamps are
pairwise distinct (with ties, the stable sort preserves input order, see
the counterexample). -/
theorem spec_C9 :
    formatTranscript [] = "No transcript available." ∧
    (∀ segs : List TranscriptSegment, segs ≠ [] →
      (sortTranscript segs).Perm segs ∧
      (sortTranscript segs).Pairwise (fun a b => a.start_timestamp ≤ b.start_timestamp) ∧
      formatTranscript segs = String.intercalate "\n" ((sortTranscript segs).map transcriptLine)) ∧
    ∀ l₁ l₂ : List TranscriptSegment, l₁.Perm l₂ →
      (l₁.map (·.start_timestamp)).Nodup →
      formatTranscript l₁ = formatTranscript l₂ := by
  refine ⟨by decide, ?_, ?_⟩
  · intro segs hne
    refine ⟨List.perm_insertionSort _ _, List.sorted_insertionSort _ _, ?_⟩
    unfold formatTranscript
    rw [if_neg (by simpa [List.length_eq_zero] using hne)]
  · intro l₁ l₂ hp hnd
    by_cases h1 : l₁ = []
    · subst h1
      rw [← hp.nil_eq]
    · have h2 : l₂ ≠ [] := by
        intro h
        subst h
        exact h1 hp.eq_nil
      have hsort : sortTranscript l₁ = sortTranscript l₂ := by
        refine sorted_eq_of_perm (fun s => s.start_timestamp) _ _ ?_ ?_ ?_ ?_
        · exact (List.perm_insertionSort _ _).trans (hp.trans (List.perm_insertionSort _ _).symm)
        · exact List.sorted_insertionSort _ _
        · exact List.sorted_insertionSort _ _
        · exact (((List.perm_insertionSort _ l₁).map _).nodup_iff).mpr hnd
      unfold formatTranscript
      rw [if_neg (by simpa [List.length_eq_zero] using h1),
        if_neg (by simpa [List.length_eq_zero] using h2), hsort]

/-- C9 witness: the quantified parts applied at concrete inputs — an
out-of-order pair is rendered sorted, and the reversed pair with distinct
timestamps yields identical output. -/
theorem spec_C9_witness :
    ((sortTranscript [segSecond, segFirst]).Perm [segSecond, segFirst] ∧
      (sortTranscript [segSecond, segFirst]).Pairwise (fun a b => a.start_timestamp ≤ b.start_timestamp) ∧
      formatTranscript [segSecond, segFirst] =
        String.intercalate "\n" ((sortTranscript [segSecond, segFirst]).map transcriptLine)) ∧
    formatTranscript [segFirst, segSecond] = formatTranscript [segSecond, segFirst] :=
  ⟨spec_C9.2.1 [segSecond, segFirst] (by decide),
   spec_C9.2.2 [segFirst, segSecond] [segSecond, segFirst] (by decide) (by decide)⟩

/-- C6 counterexample: the claim's "otherwise uses the nested value
directly" and "missing or malformed fields default to empty" both fail.
First, on a top-level object with no cache field the loader uses the whole
top-level value itself (outer.cache || outer), so its state.documents are
served even though the designated nested value is absent. Second, a
malformed truthy documents field (here an array) is fed to Object.values
and yields its elements instead of defaulting to the empty mapping. -/
theorem spec_C6_counterexample :
    loadCacheData outerNoCache = some outerNoCache ∧
    getDocumentsRaw outerNoCache = [.num 1] ∧
    getDocumentsRaw dataArrDocs = [.num 3] :=
  ⟨rfl, rfl, rfl⟩

/-- C6 amended: when the designated cache field holds a string, the loader
decodes it a second time (a failed decode is the thrown parse error); when
it holds any other truthy value, that value is used directly; when it is
missing or holds a falsy non-string value (outer.cache || outer), the
top-level value itself becomes the container. The documents and transcripts
lookups default to an empty result when the field chain is missing or the
documents field is falsy, rather than raising. -/
theorem spec_C6 :
    (∀ (outer : Json) (s : String),
      outer.getField "cache" = some (.str s) → loadCacheData outer = Json.parse s) ∧
    (∀ (outer v : Json),
      outer.getField "cache" = some v → (∀ s, v ≠ .str s) → jsTruthy v = true →
      loadCacheData outer = some v) ∧
    (∀ (outer v : Json),
      outer.getField "cache" = some v → (∀ s, v ≠ .str s) → jsTruthy v = false →
      loadCacheData outer = some outer) ∧
    (∀ outer : Json,
      outer.getField "cache" = none → loadCacheData outer = some outer) ∧
    (∀ data : Json,
      (data.getField "state").bind (fun st => st.getField "documents") = none →
      getDocumentsRaw data = []) ∧
    (∀ (data docs : Json),
      (data.getField "state").bind (fun st => st.getField "documents") = some docs →
      jsTruthy docs = false → getDocumentsRaw data = []) ∧
    (∀ (data : Json) (id : String),
      ((data.getField "state").bind fun st => st.getField "transcripts").bind
          (fun ts => ts.getField id) = none →
      getTranscriptRaw data id = .arr []) := by
  refine ⟨?_, ?_, ?_, ?_, ?_, ?_, ?_⟩
  · intro outer s h
    unfold loadCacheData
    rw [h]
  · intro outer v h hns ht
    unfold loadCacheData
    rw [h]
    cases v with
    | str s => exact absurd rfl (hns s)
    | null => simp [jsTruthy] at ht
    | bool b => simp [jsTruthy] at ht; subst ht; rfl
    | num n => simp [jsTruthy] at ht; simp [jsTruthy, ht]
    | arr elems => rfl
    | obj fields => rfl
  · intro outer v h hns hf
    unfold loadCacheData
    rw [h]
    cases v with
    | str s => exact absurd rfl (hns s)
    | null => rfl
    | bool b => simp [jsTruthy] at hf; subst hf; rfl
    | num n => simp [jsTruthy] at hf; simp [jsTruthy, hf]
    | arr elems => simp [jsTruthy] at hf
    | obj fields => simp [jsTruthy] at hf
  · intro outer h
    unfold loadCacheData
    rw [h]
  · intro data h
    unfold getDocumentsRaw
    rw [h]
  · intro data docs h hf
    unfold getDocumentsRaw
    rw [h]
    simp [hf]
  · intro data id h
    unfold getTranscriptRaw
    rw [h]

/-- C6 witness: the loader branches (string second decode, truthy
non-string used directly, falsy non-string such as cache: null falling back
to the top-level value) and the defaulting, each at a concrete JSON value;
the string branch really decodes the embedded JSON text. -/
theorem spec_C6_witness :
    loadCacheData outerStrCache = Json.parse "\x7b\"state\": 5\x7d" ∧
    Json.parse "\x7b\"state\": 5\x7d" = some (.obj [("state", .num 5)]) ∧
    loadCacheData (.obj [("cache", .obj [("state", .num 7)])]) = some (.obj [("state", .num 7)]) ∧
    loadCacheData (.obj [("cache", .null), ("version", .num 3)]) =
      some (.obj [("cache", .null), ("version", .num 3)]) ∧
    getDocumentsRaw (.obj [("version", .num 3)]) = [] ∧
    getTranscriptRaw (.obj [("version", .num 3)]) "doc-1" = .arr [] :=
  ⟨spec_C6.1 outerStrCache "\x7b\"state\": 5\x7d" rfl,
   rfl,
   spec_C6.2.1 (.obj [("cache", .obj [("state", .num 7)])]) (.obj [("state", .num 7)]) rfl
     (fun _ h => Json.noConfusion h) rfl,
   spec_C6.2.2.1 (.obj [("cache", .null), ("version", .num 3)]) .null rfl
     (fun _ h => Json.noConfusion h) rfl,
   spec_C6.2.2.2.2.1 (.obj [("version", .num 3)]) rfl,
   spec_C6.2.2.2.2.2.2 (.obj [("version", .num 3)]) "doc-1" rfl⟩

end Granola
